import Mathlib

/-!
Shallow embedding of the dgcc-followup task tracker core
(`src/New folder/followup_core.py`, with `src/app_db.py` as a second copy of
the same per-row logic), together with theorems checking the frozen claims.

Cells of a task row are modelled by `PyVal` (Python values as they occur in
the pipeline's dataframes: `None`, float NaN, strings, ints, parsed dates).
Dates are a year/month/day structure; ordering and day differences go
through `toDays` (the standard Gregorian day-count formula), matching
Python's chronological `datetime.date` comparison and `timedelta.days`.
String parsing of dates models the ISO `YYYY-MM-DD` subset of
`pd.to_datetime(..., errors="coerce")`: recognized inputs parse, anything
malformed coerces to `none`.
-/

namespace Followup

/-- Python `str.lower` on a single character (ASCII, as used by the status
synonym table whose keys are ASCII). -/
def lowerChar : Char → Char
  | 'A' => 'a' | 'B' => 'b' | 'C' => 'c' | 'D' => 'd' | 'E' => 'e' | 'F' => 'f'
  | 'G' => 'g' | 'H' => 'h' | 'I' => 'i' | 'J' => 'j' | 'K' => 'k' | 'L' => 'l'
  | 'M' => 'm' | 'N' => 'n' | 'O' => 'o' | 'P' => 'p' | 'Q' => 'q' | 'R' => 'r'
  | 'S' => 's' | 'T' => 't' | 'U' => 'u' | 'V' => 'v' | 'W' => 'w' | 'X' => 'x'
  | 'Y' => 'y' | 'Z' => 'z' | c => c

/-- Whitespace stripped by Python `str.strip()`. -/
def isPySpace (c : Char) : Bool :=
  c.toNat == 32 || c.toNat == 9 || c.toNat == 10 || c.toNat == 13 ||
  c.toNat == 11 || c.toNat == 12

/-- Python `str.lower()`. -/
def pyLower (s : String) : String := ⟨s.data.map lowerChar⟩

/-- Strip from a character list: drop leading and trailing whitespace. -/
def stripList (l : List Char) : List Char :=
  ((l.dropWhile isPySpace).reverse.dropWhile isPySpace).reverse

/-- Python `str.strip()`. -/
def pyStrip (s : String) : String := ⟨stripList s.data⟩

/-- Calendar date (proleptic Gregorian), as in Python `datetime.date`. -/
structure Date where
  year : Nat
  month : Nat
  day : Nat
deriving DecidableEq, Repr

/-- Gregorian leap year. -/
def isLeap (y : Nat) : Bool := y % 4 == 0 && (y % 100 != 0 || y % 400 == 0)

/-- Days in a month. -/
def daysInMonth (y m : Nat) : Nat :=
  if m == 2 then (if isLeap y then 29 else 28)
  else if m == 4 || m == 6 || m == 9 || m == 11 then 30
  else 31

/-- Validity of a date, as enforced by `datetime.date`'s constructor. -/
def dateValidB (d : Date) : Bool :=
  1 ≤ d.year && d.year ≤ 9999 && 1 ≤ d.month && d.month ≤ 12 &&
  1 ≤ d.day && d.day ≤ daysInMonth d.year d.month

/-- Day number of a date (standard Gregorian day-count formula; shifts the
year to start in March so leap days fall at the end).  Python date
comparison and `timedelta.days` subtraction are modelled through this. -/
def toDays (dt : Date) : Nat :=
  let y := if dt.month ≤ 2 then dt.year - 1 else dt.year
  let m := if dt.month ≤ 2 then dt.month + 12 else dt.month
  365 * y + y / 4 - y / 100 + y / 400 + (153 * (m - 3) + 2) / 5 + dt.day

/-- Chronological strict order on dates (`<` on Python dates). -/
def dateLt (a b : Date) : Bool := toDays a < toDays b

/-- Chronological order on dates (`<=` on Python dates). -/
def dateLe (a b : Date) : Bool := toDays a ≤ toDays b

/-- `(b - a).days` on Python dates. -/
def daysBetween (a b : Date) : Int := (toDays b : Int) - (toDays a : Int)

/-- A Python value as it occurs in a dataframe cell of the pipeline. -/
inductive PyVal where
  | none
  | nan
  | str (s : String)
  | int (n : Int)
  | date (d : Date) (h : dateValidB d = true)
deriving DecidableEq

/-- `pd.isna`: true on `None` and float NaN. -/
def pyIsNa : PyVal → Bool
  | .none => true
  | .nan => true
  | _ => false

/-- Python truthiness of a cell value. -/
def pyTruthy : PyVal → Bool
  | .none => false
  | .nan => true
  | .str s => s ≠ ""
  | .int n => n ≠ 0
  | .date _ _ => true

/-- Python `str(x)` for the cell values the pipeline feeds to `str`. -/
def pyStr : PyVal → String
  | .none => "None"
  | .nan => "nan"
  | .str s => s
  | .int n => toString n
  | .date d _ => toString d.year ++ "-" ++ toString d.month ++ "-" ++ toString d.day

/-- Read a cell that holds a parsed date (`date` object or `None`). -/
def asDate : PyVal → Option Date
  | .date d _ => some d
  | _ => none

/-- The `CANON_STATUS` synonym dictionary lookup (`CANON_STATUS.get(t, ...)`
specialized to the 13 keys of the source table). -/
def canonLookup (t : String) : Option String :=
  if t = "done" then some "Done"
  else if t = "completed" then some "Done"
  else if t = "finished" then some "Done"
  else if t = "under progress" then some "Under Progress"
  else if t = "in progress" then some "Under Progress"
  else if t = "progress" then some "Under Progress"
  else if t = "not done" then some "Not Done"
  else if t = "todo" then some "Not Done"
  else if t = "pending" then some "Not Done"
  else if t = "rescheduled" then some "Rescheduled"
  else if t = "deferred" then some "Rescheduled"
  else if t = "blocked" then some "Blocked"
  else if t = "on hold" then some "Blocked"
  else Option.none

/-- The five canonical labels (values of `CANON_STATUS`). -/
def CANON_VALUES : List String :=
  ["Done", "Under Progress", "Not Done", "Rescheduled", "Blocked"]

/-- The fixed display vocabulary `STATUS_ORDER`. -/
def STATUS_ORDER : List String :=
  ["Overdue", "Due Soon", "Under Progress", "Not Done", "Rescheduled", "Blocked", "Done"]

/-- `canon_status` from `followup_core.py`: `None`/NaN give `None`; otherwise
look up `str(s).strip().lower()` in the synonym table; on a miss a string
passes through unchanged and a non-string gives `None`. -/
def canon_status : PyVal → Option String
  | .none => Option.none
  | .nan => Option.none
  | .str s =>
      match canonLookup (pyLower (pyStrip s)) with
      | some c => some c
      | Option.none => some s
  | .int n =>
      match canonLookup (pyLower (pyStrip (toString n))) with
      | some c => some c
      | Option.none => Option.none
  | .date d h =>
      match canonLookup (pyLower (pyStrip (pyStr (.date d h)))) with
      | some c => some c
      | Option.none => Option.none

/-- Reading the canonicalized status column back as cell values (the
pipeline stores `canon_status`'s output into `df["Status"]`). -/
def ofOptStr : Option String → PyVal
  | Option.none => .none
  | some s => .str s

/-- Split a character list on `-`. -/
def splitDash : List Char → List (List Char)
  | [] => [[]]
  | c :: rest =>
      let r := splitDash rest
      if c = '-' then [] :: r
      else
        match r with
        | [] => [[c]]
        | h :: t => (c :: h) :: t

/-- Decimal digit value of a character. -/
def charDigit (c : Char) : Option Nat :=
  if 48 ≤ c.toNat ∧ c.toNat ≤ 57 then some (c.toNat - 48) else Option.none

/-- Accumulate decimal digits. -/
def digitsToNatAux : List Char → Nat → Option Nat
  | [], acc => some acc
  | c :: rest, acc =>
      match charDigit c with
      | some d => digitsToNatAux rest (10 * acc + d)
      | Option.none => Option.none

/-- Parse a non-empty all-digit character list as a natural number. -/
def parseNatDigits : List Char → Option Nat
  | [] => Option.none
  | l => digitsToNatAux l 0

/-- Modelled ISO `YYYY-MM-DD` core of `pd.to_datetime(x, errors="coerce")`:
a recognized date string parses to a (validated) date, anything else
coerces to `none` rather than raising. -/
def parseISO (s : String) : Option Date :=
  match splitDash s.data with
  | [ys, ms, ds] =>
      match parseNatDigits ys, parseNatDigits ms, parseNatDigits ds with
      | some y, some m, some d =>
          if dateValidB ⟨y, m, d⟩ = true then some ⟨y, m, d⟩ else Option.none
      | _, _, _ => Option.none
  | _ => Option.none

/-- `to_date` from `followup_core.py`: `None`/NaN/blank strings give `None`;
strings go through the (coercing) parser; already-parsed dates pass through;
integers are read by pandas as nanosecond offsets from the 1970-01-01 epoch
(modelled for offsets smaller than one day). -/
def to_date : PyVal → Option Date
  | .none => Option.none
  | .nan => Option.none
  | .str s => if pyStrip s = "" then Option.none else parseISO (pyStrip s)
  | .int n => if 0 ≤ n then some ⟨1970, 1, 1⟩ else some ⟨1969, 12, 31⟩
  | .date d _ => some d

/-- A task row, restricted to the fields the claims' functions read.  Cells
hold `PyVal`s exactly as in the dataframe at the point each function runs. -/
structure Row where
  Task : PyVal := .none
  Status : PyVal := .none
  StartDate : PyVal := .none
  DueDate : PyVal := .none
  RescheduledTo : PyVal := .none
  Change_Request_ID : PyVal := .none
  Approval_Status : PyVal := .none
  Approval_By : PyVal := .none
  CreatedOn : PyVal := .none
  CompletedOn : PyVal := .none
  SLA_TargetDays : PyVal := .none
  SLA_DueDate : PyVal := .none
deriving DecidableEq

/-- Guard of the `Rescheduled` rule in `compute_status_row`:
`resched and resched >= today and (current or "").lower() != "done"`. -/
def reschedGuard (resched : Option Date) (today : Date) (curStr : String) : Bool :=
  match resched with
  | some r => dateLe today r && !(pyLower curStr == "done")
  | Option.none => false

/-- Guard of the `Overdue` rule:
`due` present, `due < today and (current or "").lower() != "done"`. -/
def overdueGuard (due : Option Date) (today : Date) (curStr : String) : Bool :=
  match due with
  | some d => dateLt d today && !(pyLower curStr == "done")
  | Option.none => false

/-- Guard of the `Due Soon` rule: `due` present,
`0 <= (due - today).days <= due_soon_days and (current or "").lower() != "done"`. -/
def dueSoonGuard (due : Option Date) (today : Date) (w : Int) (curStr : String) : Bool :=
  match due with
  | some d =>
      decide (0 ≤ daysBetween today d) && decide (daysBetween today d ≤ w) &&
      !(pyLower curStr == "done")
  | Option.none => false

/-- Guard of the manual-status passthrough rule:
`current and current not in ["Rescheduled"]` (Python truthiness: present and
non-empty). -/
def currentGuard (current : Option String) : Bool :=
  match current with
  | some c => !(c == "") && !(c == "Rescheduled")
  | Option.none => false

/-- Guard of the `Under Progress` rule: `start and start <= today`. -/
def startGuard (start : Option Date) (today : Date) : Bool :=
  match start with
  | some s => dateLe s today
  | Option.none => false

/-- `compute_status_row` from `followup_core.py` (identical in `app_db.py`).
The two checks inside the Python `if due:` block are flattened: both guards
require the due date to be present, so the flattening is behaviour-preserving. -/
def compute_status_row (row : Row) (today : Date) (due_soon_days : Int) : String :=
  let current := canon_status row.Status
  let due := to_date row.DueDate
  let start := to_date row.StartDate
  let resched := to_date row.RescheduledTo
  let curStr := current.getD ""
  if pyLower (pyStrip curStr) = "done" then "Done"
  else if reschedGuard resched today curStr then "Rescheduled"
  else if overdueGuard due today curStr then "Overdue"
  else if dueSoonGuard due today due_soon_days curStr then "Due Soon"
  else if currentGuard current then curStr
  else if startGuard start today then "Under Progress"
  else "Not Done"

/-- Rule 2 of the claim: a reschedule-target date exists and is on-or-after
today. -/
def reschedRule (resched : Option Date) (today : Date) : Bool :=
  match resched with
  | some r => dateLe today r
  | Option.none => false

/-- Rule 3a of the claim: a due date exists and is strictly before today. -/
def overdueRule (due : Option Date) (today : Date) : Bool :=
  match due with
  | some d => dateLt d today
  | Option.none => false

/-- Rule 3b of the claim: a due date exists and the number of days from
today to it is between 0 and the window inclusive on both ends. -/
def dueSoonRule (due : Option Date) (today : Date) (w : Int) : Bool :=
  match due with
  | some d => decide (0 ≤ daysBetween today d) && decide (daysBetween today d ≤ w)
  | Option.none => false

/-- Modelled from the spec: the Status Engine rule list exactly as the claim
words it — (1) canonical status `Done`; (2) reschedule target on-or-after
today; (3) due date strictly before today gives `Overdue`, else a day gap
between 0 and the window inclusive gives `Due Soon`; (4) a non-empty
canonical status other than `Rescheduled` verbatim; (5) start date
on-or-before today; (6) `Not Done`. -/
def statusEngineSpec (row : Row) (today : Date) (w : Int) : String :=
  let current := canon_status row.Status
  let due := to_date row.DueDate
  let start := to_date row.StartDate
  let resched := to_date row.RescheduledTo
  if current = some "Done" then "Done"
  else if reschedRule resched today then "Rescheduled"
  else if overdueRule due today then "Overdue"
  else if dueSoonRule due today w then "Due Soon"
  else if currentGuard current then current.getD ""
  else if startGuard start today then "Under Progress"
  else "Not Done"

/-- The `pd.isna(cr_id) or cr_id in [None, ""]` guard of `apply_approval`. -/
def crEmpty : PyVal → Bool
  | .none => true
  | .nan => true
  | .str s => s == ""
  | _ => false

/-- Lookup in the `approver_by_id` dictionary. -/
def lookupApprover : List (String × PyVal) → String → Option PyVal
  | [], _ => Option.none
  | (k, v) :: rest, key => if k == key then some v else lookupApprover rest key

/-- The two approval-field mutations of `apply_approval`: set
`Approval_Status` to `"Approved"`, and overwrite `Approval_By` from the
`approver_by_id` dict only when the task's own value is missing or falsy
(the source keeps the task-level value when it is set). -/
def approvalFieldsUpdate (approverById : List (String × PyVal)) (key : String) (row : Row) : Row :=
  { row with
    Approval_Status := .str "Approved",
    Approval_By :=
      if !(pyIsNa row.Approval_By) && pyTruthy row.Approval_By then row.Approval_By
      else (lookupApprover approverById key).getD row.Approval_By }

/-- The due-date mutation of `apply_approval`:
`if res and (row["DueDate"] is None or res > row["DueDate"]): row["DueDate"] = res`.
At this point in the pipeline `RescheduledTo` and `DueDate` cells hold
parsed dates or `None`; the `res > due` comparison is only defined on such
cells, so other shapes are carried through untouched. -/
def dueDateUpdate (resched due : PyVal) : PyVal :=
  match resched with
  | .date r hr =>
      match due with
      | .none => .date r hr
      | .date d hd => if dateLt d r then .date r hr else .date d hd
      | _ => due
  | _ => due

/-- `apply_approval` from `followup_core.py` (per-row closure of
`process_excel`).  `approvedIds` and `approverById` model the `approved_ids`
set and `approver_by_id` dict built from the approved rows of the
`Change_Log` sheet. -/
def apply_approval (approvedIds : List String) (approverById : List (String × PyVal))
    (row : Row) : Row :=
  let crId := row.Change_Request_ID
  if crEmpty crId then row
  else
    let key := pyStrip (pyStr crId)
    if approvedIds.contains key then
      let row2 := approvalFieldsUpdate approverById key row
      { row2 with DueDate := dueDateUpdate row2.RescheduledTo row2.DueDate }
    else row

/-- `compute_sla_breach` from `followup_core.py`.  By this point in the
pipeline `SLA_DueDate` and `CompletedOn` cells hold parsed dates or `None`.
The `today` argument stands for the value of `dt.date.today()` at the moment
the row is evaluated (the source reads the wall clock here rather than the
`today` threaded through `process_excel`; see the claim on "today"
single-threading). -/
def compute_sla_breach (row : Row) (today : Date) : Bool :=
  match row.SLA_DueDate with
  | .date sladue _ =>
      match row.CompletedOn with
      | .date comp _ => dateLt sladue comp
      | _ => dateLt sladue today && !(canon_status row.Status == some "Done")
  | _ => false

/-- Modelled from the spec: the SLA-breach condition as the claim words it. -/
def slaBreachSpec (row : Row) (today : Date) : Prop :=
  ∃ sladue, asDate row.SLA_DueDate = some sladue ∧
    ((∃ comp, asDate row.CompletedOn = some comp ∧ dateLt sladue comp = true) ∨
     (asDate row.CompletedOn = Option.none ∧ dateLt sladue today = true ∧
      canon_status row.Status ≠ some "Done"))

/-- `Status_Final` after the `pd.Categorical(..., categories=STATUS_ORDER)`
cast in `process_excel`: values outside the fixed vocabulary become NaN
(modelled as `none`). -/
def statusFinalCat (row : Row) (today : Date) (w : Int) : Option String :=
  let s := compute_status_row row today w
  if STATUS_ORDER.contains s then some s else Option.none

/-- One cell of the `status_pivot` table: `pivot_table(index="Status_Final",
values="Task", aggfunc="count")` counts, per status bucket, the rows whose
`Task` cell is non-null (pandas `count` skips NaN/None values). -/
def pivotCount (df : List Row) (today : Date) (w : Int) (s : String) : Nat :=
  (df.filter (fun r => statusFinalCat r today w == some s && !(pyIsNa r.Task))).length

/-- The `status_pivot` counts column, one entry per vocabulary status (the
categorical index makes every category appear, `fill_value=0`). -/
def statusPivotCounts (df : List Row) (today : Date) (w : Int) : List Nat :=
  STATUS_ORDER.map (pivotCount df today w)

/-- The `Total Tasks` KPI: `len(df)`. -/
def kpiTotal (df : List Row) : Nat := df.length

/-- `Is_Overdue`: `df["Status_Final"].eq("Overdue")` on the categorical
column (NaN compares unequal). -/
def isOverdueFlag (sf : Option String) : Bool := sf == some "Overdue"

/-- `Is_DueSoon`: `df["Status_Final"].eq("Due Soon")`. -/
def isDueSoonFlag (sf : Option String) : Bool := sf == some "Due Soon"

/-- `Is_Done`: `df["Status_Final"].eq("Done")`. -/
def isDoneFlag (sf : Option String) : Bool := sf == some "Done"

/-- The per-row core of one `process_excel` run, keeping the two date
sources distinct as in the source: `Status_Final` is computed against the
`today` fixed once at the top of `process_excel` (overridable), while
`SLA_Breach` is computed against the wall clock read inside
`compute_sla_breach`. -/
def processRowCore (row : Row) (todayParam wallClock : Date) (w : Int) : String × Bool :=
  (compute_status_row row todayParam w, compute_sla_breach row wallClock)

/-! ### Helper lemmas -/

theorem isPySpace_lowerChar (c : Char) : isPySpace (lowerChar c) = isPySpace c := by
  unfold lowerChar
  split <;> rfl

theorem dropWhile_lower (l : List Char) :
    (l.map lowerChar).dropWhile isPySpace = (l.dropWhile isPySpace).map lowerChar := by
  rw [List.dropWhile_map]
  have h : isPySpace ∘ lowerChar = isPySpace := funext isPySpace_lowerChar
  rw [h]

theorem stripList_lower (l : List Char) :
    stripList (l.map lowerChar) = (stripList l).map lowerChar := by
  unfold stripList
  rw [dropWhile_lower, ← List.map_reverse, dropWhile_lower, ← List.map_reverse]

theorem strip_lower_comm (s : String) : pyStrip (pyLower s) = pyLower (pyStrip s) := by
  unfold pyStrip pyLower
  simp only [stripList_lower]

/-- If lowering alone yields `"done"`, stripping first cannot change that
(lowercasing preserves whitespace, and `"done"` has none to strip). -/
theorem lower_done_strip {s : String} (h : pyLower s = "done") :
    pyLower (pyStrip s) = "done" := by
  rw [← strip_lower_comm, h]
  rfl

/-- Every hit of the synonym table is one of the five canonical labels. -/
theorem canonLookup_values {t c : String} (h : canonLookup t = some c) :
    c = "Done" ∨ c = "Under Progress" ∨ c = "Not Done" ∨ c = "Rescheduled" ∨ c = "Blocked" := by
  unfold canonLookup at h
  by_cases h1 : t = "done"
  · rw [if_pos h1] at h; injection h with h; subst h; decide
  · rw [if_neg h1] at h
    by_cases h2 : t = "completed"
    · rw [if_pos h2] at h; injection h with h; subst h; decide
    · rw [if_neg h2] at h
      by_cases h3 : t = "finished"
      · rw [if_pos h3] at h; injection h with h; subst h; decide
      · rw [if_neg h3] at h
        by_cases h4 : t = "under progress"
        · rw [if_pos h4] at h; injection h with h; subst h; decide
        · rw [if_neg h4] at h
          by_cases h5 : t = "in progress"
          · rw [if_pos h5] at h; injection h with h; subst h; decide
          · rw [if_neg h5] at h
            by_cases h6 : t = "progress"
            · rw [if_pos h6] at h; injection h with h; subst h; decide
            · rw [if_neg h6] at h
              by_cases h7 : t = "not done"
              · rw [if_pos h7] at h; injection h with h; subst h; decide
              · rw [if_neg h7] at h
                by_cases h8 : t = "todo"
                · rw [if_pos h8] at h; injection h with h; subst h; decide
                · rw [if_neg h8] at h
                  by_cases h9 : t = "pending"
                  · rw [if_pos h9] at h; injection h with h; subst h; decide
                  · rw [if_neg h9] at h
                    by_cases h10 : t = "rescheduled"
                    · rw [if_pos h10] at h; injection h with h; subst h; decide
                    · rw [if_neg h10] at h
                      by_cases h11 : t = "deferred"
                      · rw [if_pos h11] at h; injection h with h; subst h; decide
                      · rw [if_neg h11] at h
                        by_cases h12 : t = "blocked"
                        · rw [if_pos h12] at h; injection h with h; subst h; decide
                        · rw [if_neg h12] at h
                          by_cases h13 : t = "on hold"
                          · rw [if_pos h13] at h; injection h with h; subst h; decide
                          · rw [if_neg h13] at h; exact Option.noConfusion h

/-- The `Done` test of rule 1 of the engine, written on the raw string as in
the source, recognizes exactly the canonical label `Done` once the status
has gone through `canon_status`. -/
theorem canon_done_char (v : PyVal) :
    pyLower (pyStrip ((canon_status v).getD "")) = "done" ↔ canon_status v = some "Done" := by
  cases v with
  | none => decide
  | nan => decide
  | str s =>
      rcases h : canonLookup (pyLower (pyStrip s)) with _ | c
      · simp only [canon_status, h, Option.getD_some, Option.some.injEq]
        constructor
        · intro hl
          rw [hl] at h
          exact absurd h (by decide)
        · intro hr
          subst hr
          exact absurd h (by decide)
      · simp only [canon_status, h]
        rcases canonLookup_values h with h5 | h5 | h5 | h5 | h5 <;> subst h5 <;> decide
  | int n =>
      rcases h : canonLookup (pyLower (pyStrip (toString n))) with _ | c
      · simp only [canon_status, h]
        decide
      · simp only [canon_status, h]
        rcases canonLookup_values h with h5 | h5 | h5 | h5 | h5 <;> subst h5 <;> decide
  | date d hd =>
      rcases h : canonLookup (pyLower (pyStrip (pyStr (.date d hd)))) with _ | c
      · simp only [canon_status, h]
        decide
      · simp only [canon_status, h]
        rcases canonLookup_values h with h5 | h5 | h5 | h5 | h5 <;> subst h5 <;> decide

theorem reschedGuard_eq (resched : Option Date) (today : Date) {c : String}
    (h : ¬ pyLower c = "done") :
    reschedGuard resched today c = reschedRule resched today := by
  have hb : (pyLower c == "done") = false := beq_eq_false_iff_ne.mpr h
  cases resched with
  | none => rfl
  | some r => simp [reschedGuard, reschedRule, hb]

theorem overdueGuard_eq (due : Option Date) (today : Date) {c : String}
    (h : ¬ pyLower c = "done") :
    overdueGuard due today c = overdueRule due today := by
  have hb : (pyLower c == "done") = false := beq_eq_false_iff_ne.mpr h
  cases due with
  | none => rfl
  | some d => simp [overdueGuard, overdueRule, hb]

theorem dueSoonGuard_eq (due : Option Date) (today : Date) (w : Int) {c : String}
    (h : ¬ pyLower c = "done") :
    dueSoonGuard due today w c = dueSoonRule due today w := by
  have hb : (pyLower c == "done") = false := beq_eq_false_iff_ne.mpr h
  cases due with
  | none => rfl
  | some d => simp [dueSoonGuard, dueSoonRule, hb]

/-! ### Claim theorems -/

/-- C1: for every task row, with today and a due-soon window fixed, the
Status Engine returns the first match of the claim's six rules in this
order — Done; Rescheduled; Overdue / Due Soon; manual status verbatim;
Under Progress; Not Done.  In particular Done dominates a past due date,
and a past due date dominates a stale manual `Blocked` status. -/
theorem statusEngine_rule_order :
    (∀ (row : Row) (today : Date) (w : Int),
        compute_status_row row today w = statusEngineSpec row today w) ∧
    compute_status_row { Status := .str "Done", DueDate := .str "2024-01-01" } ⟨2024, 1, 10⟩ 3 = "Done" ∧
    compute_status_row { Status := .str "Blocked", DueDate := .str "2024-01-09" } ⟨2024, 1, 10⟩ 3 = "Overdue" := by
  refine ⟨fun row today w => ?_, by decide, by decide⟩
  simp only [compute_status_row, statusEngineSpec]
  by_cases h1 : pyLower (pyStrip ((canon_status row.Status).getD "")) = "done"
  · rw [if_pos h1, if_pos ((canon_done_char row.Status).mp h1)]
  · have h1R : ¬ canon_status row.Status = some "Done" :=
      fun hc => h1 ((canon_done_char row.Status).mpr hc)
    have h2 : ¬ pyLower ((canon_status row.Status).getD "") = "done" :=
      fun hl => h1 (lower_done_strip hl)
    rw [if_neg h1, if_neg h1R, reschedGuard_eq _ _ h2, overdueGuard_eq _ _ h2,
        dueSoonGuard_eq _ _ _ h2]

/-- C2 counterexample: the Status Engine does emit values outside the fixed
vocabulary — an unrecognized non-empty status string with no usable dates is
passed through verbatim (here `"Banana"`). -/
theorem statusVocab_counterexample :
    ¬ (∀ (row : Row) (today : Date) (w : Int),
        STATUS_ORDER.contains (compute_status_row row today w) = true) := by
  intro h
  exact absurd (h { Status := .str "Banana" } ⟨2024, 1, 10⟩ 3) (by decide)

/-- C2 amended: the final status is a member of the fixed vocabulary except
in the documented passthrough case: otherwise it is the task's canonical
status returned verbatim (an unrecognized non-empty free-text string). -/
theorem statusVocab_amended (row : Row) (today : Date) (w : Int) :
    STATUS_ORDER.contains (compute_status_row row today w) = true ∨
    canon_status row.Status = some (compute_status_row row today w) := by
  simp only [compute_status_row]
  split
  · left; decide
  split
  · left; decide
  split
  · left; decide
  split
  · left; decide
  split
  · rename_i hcur
    rcases hc : canon_status row.Status with _ | c
    · rw [hc] at hcur
      exact absurd hcur (by decide)
    · right
      rfl
  split
  · left; decide
  · left; decide

/-- C3: the SLA breach flag is true exactly when an SLA due date exists and
either completion is strictly later than it, or there is no completion,
today is strictly past it, and the canonical status is not Done. -/
theorem slaBreach_iff (row : Row) (today : Date) :
    compute_sla_breach row today = true ↔ slaBreachSpec row today := by
  rcases hsd : row.SLA_DueDate with _ | _ | s | n | ⟨sladue, hvd⟩ <;>
    simp only [compute_sla_breach, slaBreachSpec, asDate, hsd]
  · simp
  · simp
  · simp
  · simp
  · rcases hc : row.CompletedOn with _ | _ | cs | cn | ⟨comp, hvc⟩ <;> simp [hc]

/-- Witness for C3 at the spec's own worked example: SLA due 2024-01-06,
completed 2024-01-10, today 2024-01-07 is a breach. -/
theorem slaBreach_iff_witness :
    compute_sla_breach
        { SLA_DueDate := .date ⟨2024, 1, 6⟩ rfl, CompletedOn := .date ⟨2024, 1, 10⟩ rfl }
        ⟨2024, 1, 7⟩ = true ∧
    slaBreachSpec
        { SLA_DueDate := .date ⟨2024, 1, 6⟩ rfl, CompletedOn := .date ⟨2024, 1, 10⟩ rfl }
        ⟨2024, 1, 7⟩ := by
  refine ⟨by decide, ?_⟩
  exact (slaBreach_iff
    { SLA_DueDate := .date ⟨2024, 1, 6⟩ rfl, CompletedOn := .date ⟨2024, 1, 10⟩ rfl }
    ⟨2024, 1, 7⟩).mp (by decide)


theorem dateLt_to_le {a b : Date} (h : dateLt a b = true) : dateLe a b = true := by
  simp only [dateLt, decide_eq_true_eq] at h
  simp only [dateLe, decide_eq_true_eq]
  omega

theorem dateLe_refl (a : Date) : dateLe a a = true := by
  simp [dateLe]

/-- What `dueDateUpdate` does: either nothing, or the reschedule target is
a date and replaces a due date that was absent or strictly earlier. -/
theorem dueDateUpdate_char (resched due : PyVal) :
    dueDateUpdate resched due = due ∨
    (∃ r hr, resched = PyVal.date r hr ∧ dueDateUpdate resched due = PyVal.date r hr ∧
      (due = PyVal.none ∨ ∃ d hd, due = PyVal.date d hd ∧ dateLt d r = true)) := by
  rcases resched with _ | _ | s | n | ⟨r, hr⟩
  · exact Or.inl rfl
  · exact Or.inl rfl
  · exact Or.inl rfl
  · exact Or.inl rfl
  · rcases due with _ | _ | ds | dn | ⟨d, hd⟩
    · exact Or.inr ⟨r, hr, rfl, rfl, Or.inl rfl⟩
    · exact Or.inl rfl
    · exact Or.inl rfl
    · exact Or.inl rfl
    · by_cases h3 : dateLt d r = true
      · refine Or.inr ⟨r, hr, rfl, ?_, Or.inr ⟨d, hd, rfl, h3⟩⟩
        simp [dueDateUpdate, h3]
      · left
        simp [dueDateUpdate, h3]

/-- The due date after `apply_approval` is either untouched or the result of
`dueDateUpdate` on the row's own cells. -/
theorem apply_approval_DueDate (ids : List String) (appr : List (String × PyVal)) (row : Row) :
    (apply_approval ids appr row).DueDate = row.DueDate ∨
    (apply_approval ids appr row).DueDate = dueDateUpdate row.RescheduledTo row.DueDate := by
  simp only [apply_approval]
  by_cases h0 : crEmpty row.Change_Request_ID = true
  · simp [h0]
  · by_cases h1 : pyStrip (pyStr row.Change_Request_ID) ∈ ids
    · simp [h0, h1, approvalFieldsUpdate]
    · simp [h0, h1]

/-- C4 amended: the Approval Resolver replaces the due date with the
reschedule target only when the target is present and either the current
due date is absent or the target is strictly later than it; an existing due
date never moves earlier. -/
theorem approvalResolver_forward_only (ids : List String) (appr : List (String × PyVal)) (row : Row) :
    ((apply_approval ids appr row).DueDate ≠ row.DueDate →
       ∃ r hr, row.RescheduledTo = PyVal.date r hr ∧
         (apply_approval ids appr row).DueDate = PyVal.date r hr ∧
         (row.DueDate = PyVal.none ∨ ∃ d hd, row.DueDate = PyVal.date d hd ∧ dateLt d r = true)) ∧
    (∀ d hd, row.DueDate = PyVal.date d hd →
       ∃ d2 hd2, (apply_approval ids appr row).DueDate = PyVal.date d2 hd2 ∧ dateLe d d2 = true) := by
  rcases apply_approval_DueDate ids appr row with h | h
  · constructor
    · intro hne
      exact absurd h hne
    · intro d hd hdd
      exact ⟨d, hd, by rw [h, hdd], dateLe_refl d⟩
  · rcases dueDateUpdate_char row.RescheduledTo row.DueDate with h2 | ⟨r, hr, hres, hupd, hdue⟩
    · constructor
      · intro hne
        exact absurd (h.trans h2) hne
      · intro d hd hdd
        exact ⟨d, hd, by rw [h, h2, hdd], dateLe_refl d⟩
    · constructor
      · intro hne
        exact ⟨r, hr, hres, h.trans hupd, hdue⟩
      · intro d hd hdd
        rcases hdue with hnone | ⟨d3, hd3, hdd3, hlt⟩
        · rw [hdd] at hnone
          exact PyVal.noConfusion hnone
        · rw [hdd] at hdd3
          injection hdd3 with hdeq
          subst hdeq
          exact ⟨r, hr, h.trans hupd, dateLt_to_le hlt⟩

/-- C4 counterexample: for a matched approved change request whose task has
no current due date, the resolver does install the reschedule target as the
due date even though the target is not strictly later than any current due
date — the claim's "only when strictly later" condition fails. -/
theorem approvalMonotonic_counterexample :
    ¬ (∀ (ids : List String) (appr : List (String × PyVal)) (row : Row),
        (apply_approval ids appr row).DueDate ≠ row.DueDate →
        ∃ r hr d hd, row.RescheduledTo = PyVal.date r hr ∧ row.DueDate = PyVal.date d hd ∧
          dateLt d r = true) := by
  intro h
  have hx := h ["CR-1"] []
      { Change_Request_ID := .str "CR-1", RescheduledTo := .date ⟨2024, 1, 5⟩ rfl }
      (by decide)
  rcases hx with ⟨r, hr, d, hd, hres, hdd, hlt⟩
  exact PyVal.noConfusion hdd

/-- Witness for C4's amended theorem: an approved reschedule to a later
date keeps the due date monotonically forward. -/
theorem approvalResolver_forward_only_witness :
    ∃ d2 hd2,
      (apply_approval ["CR-7"] []
          { Change_Request_ID := .str "CR-7", DueDate := .date ⟨2024, 1, 10⟩ rfl,
            RescheduledTo := .date ⟨2024, 1, 20⟩ rfl }).DueDate = PyVal.date d2 hd2 ∧
      dateLe ⟨2024, 1, 10⟩ d2 = true :=
  (approvalResolver_forward_only ["CR-7"] []
      { Change_Request_ID := .str "CR-7", DueDate := .date ⟨2024, 1, 10⟩ rfl,
        RescheduledTo := .date ⟨2024, 1, 20⟩ rfl }).2 ⟨2024, 1, 10⟩ rfl rfl


/-- C5 (code bug): with input and the explicit today override fixed, the
enriched row output still depends on the wall clock, because
`compute_sla_breach` reads `dt.date.today()` instead of the single `today`
computed at the top of `process_excel`. -/
theorem today_not_threaded_bug :
    processRowCore { SLA_DueDate := .date ⟨2024, 1, 5⟩ rfl, DueDate := .date ⟨2024, 1, 4⟩ rfl }
        ⟨2024, 1, 3⟩ ⟨2024, 1, 1⟩ 3 ≠
    processRowCore { SLA_DueDate := .date ⟨2024, 1, 5⟩ rfl, DueDate := .date ⟨2024, 1, 4⟩ rfl }
        ⟨2024, 1, 3⟩ ⟨2024, 1, 10⟩ 3 := by
  decide

/-- C6 (code bug): a single task row whose `Task` cell is missing is counted
by the `Total Tasks` KPI but by no bucket of the status pivot (pandas
`count` skips null values of the counted column), so the pivot sum and the
total disagree; with the `Task` cell present and a vocabulary status the two
agree; a row with an unrecognized passthrough status (NaN after the
categorical cast) is likewise dropped from every bucket. -/
theorem pivot_drops_null_task_bug :
    (statusPivotCounts [{ Task := .none, Status := .str "Not Done" }] ⟨2024, 1, 10⟩ 3).sum = 0 ∧
    kpiTotal [{ Task := .none, Status := .str "Not Done" }] = 1 ∧
    (statusPivotCounts [{ Task := .str "t", Status := .str "Not Done" }] ⟨2024, 1, 10⟩ 3).sum = 1 ∧
    (statusPivotCounts [{ Task := .str "t", Status := .str "Banana" }] ⟨2024, 1, 10⟩ 3).sum = 0 ∧
    kpiTotal [{ Task := .str "t", Status := .str "Banana" }] = 1 := by
  refine ⟨by decide, rfl, by decide, by decide, rfl⟩

/-- C7: the Status Canonicalizer is total (a function of the model, defined
on every cell value including `None`, NaN, non-strings and unrecognized
labels) and idempotent: canonicalizing its own output changes nothing, and
every already-canonical label is returned unchanged. -/
theorem canonicalizer_idempotent :
    (∀ v : PyVal, canon_status (ofOptStr (canon_status v)) = canon_status v) ∧
    (∀ c ∈ CANON_VALUES, canon_status (.str c) = some c) := by
  constructor
  · intro v
    cases v with
    | none => rfl
    | nan => rfl
    | str s =>
        rcases h : canonLookup (pyLower (pyStrip s)) with _ | c
        · have hcs : canon_status (.str s) = some s := by simp [canon_status, h]
          rw [hcs]
          exact hcs
        · have hcs : canon_status (.str s) = some c := by simp [canon_status, h]
          rw [hcs]
          rcases canonLookup_values h with h5 | h5 | h5 | h5 | h5 <;> subst h5 <;> decide
    | int n =>
        rcases h : canonLookup (pyLower (pyStrip (toString n))) with _ | c
        · have hcs : canon_status (.int n) = Option.none := by simp [canon_status, h]
          rw [hcs]
          rfl
        · have hcs : canon_status (.int n) = some c := by simp [canon_status, h]
          rw [hcs]
          rcases canonLookup_values h with h5 | h5 | h5 | h5 | h5 <;> subst h5 <;> decide
    | date d hd =>
        rcases h : canonLookup (pyLower (pyStrip (pyStr (.date d hd)))) with _ | c
        · have hcs : canon_status (.date d hd) = Option.none := by simp [canon_status, h]
          rw [hcs]
          rfl
        · have hcs : canon_status (.date d hd) = some c := by simp [canon_status, h]
          rw [hcs]
          rcases canonLookup_values h with h5 | h5 | h5 | h5 | h5 <;> subst h5 <;> decide
  · intro c hc
    simp only [CANON_VALUES, List.mem_cons, List.not_mem_nil, or_false] at hc
    rcases hc with rfl | rfl | rfl | rfl | rfl <;> decide

/-- Witness for C7: a synonym with stray spacing canonicalizes to `Under
Progress` and is a fixed point of a second pass; `Blocked` is already
canonical. -/
theorem canonicalizer_idempotent_witness :
    canon_status (ofOptStr (canon_status (.str " In Progress "))) = canon_status (.str " In Progress ") ∧
    canon_status (.str "Blocked") = some "Blocked" :=
  ⟨canonicalizer_idempotent.1 (.str " In Progress "),
   canonicalizer_idempotent.2 "Blocked" (by decide)⟩

/-- C8: a task whose change-request id is empty/missing or matches no
approved change request passes through the Approval Resolver unchanged in
every field. -/
theorem approvalResolver_frame (ids : List String) (appr : List (String × PyVal)) (row : Row)
    (h : crEmpty row.Change_Request_ID = true ∨
         ¬ pyStrip (pyStr row.Change_Request_ID) ∈ ids) :
    apply_approval ids appr row = row := by
  rcases h with h | h
  · simp [apply_approval, h]
  · by_cases h0 : crEmpty row.Change_Request_ID = true
    · simp [apply_approval, h0]
    · simp [apply_approval, h0, h]

/-- Witness for C8: an id matching no approved request leaves the row
untouched. -/
theorem approvalResolver_frame_witness :
    apply_approval ["CR-1"] []
        { Change_Request_ID := .str "CR-9", DueDate := .date ⟨2024, 1, 10⟩ rfl,
          RescheduledTo := .date ⟨2024, 1, 20⟩ rfl } =
      { Change_Request_ID := .str "CR-9", DueDate := .date ⟨2024, 1, 10⟩ rfl,
        RescheduledTo := .date ⟨2024, 1, 20⟩ rfl } :=
  approvalResolver_frame ["CR-1"] [] _ (Or.inr (by decide))

theorem parseISO_valid {s : String} {d : Date} (h : parseISO s = some d) :
    dateValidB d = true := by
  unfold parseISO at h
  split at h
  · split at h
    · split at h
      · injection h with h2
        subst h2
        assumption
      · exact Option.noConfusion h
    all_goals exact Option.noConfusion h
  · exact Option.noConfusion h

/-- C9: the date parser of the model is total — every cell value yields
either a valid date or `None`; missing values, empty strings and malformed
date strings all degrade to `None` rather than an error. -/
theorem dateParser_total_valid :
    (∀ (v : PyVal) (d : Date), to_date v = some d → dateValidB d = true) ∧
    to_date (.str "2024-13-45") = Option.none ∧
    to_date (.str "yesterday-ish") = Option.none ∧
    to_date (.str "") = Option.none ∧
    to_date (.str "   ") = Option.none ∧
    to_date .none = Option.none ∧ to_date .nan = Option.none := by
  refine ⟨?_, by decide, by decide, by decide, by decide, rfl, rfl⟩
  intro v d h
  cases v with
  | none => exact Option.noConfusion h
  | nan => exact Option.noConfusion h
  | str s =>
      simp only [to_date] at h
      split at h
      · exact Option.noConfusion h
      · exact parseISO_valid h
  | int n =>
      simp only [to_date] at h
      split at h
      · injection h with h2
        subst h2
        decide
      · injection h with h2
        subst h2
        decide
  | date dd hdd =>
      injection h with h2
      subst h2
      assumption

/-- Witness for C9: an ISO string parses to its (valid) date. -/
theorem dateParser_total_valid_witness : dateValidB ⟨2024, 1, 6⟩ = true :=
  dateParser_total_valid.1 (.str "2024-01-06") ⟨2024, 1, 6⟩ (by decide)

theorem distinct_labels_flag (o : Option String) (a b : String) (hab : ¬ a = b) :
    ((o == some a) && (o == some b)) = false := by
  rcases o with _ | s
  · rfl
  · by_cases h1 : s = a
    · subst h1
      simp [hab]
    · simp [h1]

/-- C10: the three derived flags are pairwise mutually exclusive on every
enriched row, because each is an equality test of the one `Status_Final`
value against a distinct label. -/
theorem flags_mutually_exclusive (row : Row) (today : Date) (w : Int) :
    (isOverdueFlag (statusFinalCat row today w) && isDueSoonFlag (statusFinalCat row today w)) = false ∧
    (isOverdueFlag (statusFinalCat row today w) && isDoneFlag (statusFinalCat row today w)) = false ∧
    (isDueSoonFlag (statusFinalCat row today w) && isDoneFlag (statusFinalCat row today w)) = false := by
  unfold isOverdueFlag isDueSoonFlag isDoneFlag
  exact ⟨distinct_labels_flag _ _ _ (by decide), distinct_labels_flag _ _ _ (by decide),
         distinct_labels_flag _ _ _ (by decide)⟩

end Followup
